import Mathlib

/-! DeepState test harness: the driver of `DeepState.h`

A shallow embedding of the test-execution driver declared in
`src/include/deepstate/DeepState.h`: the saved-test-case file filter, the
decoding of a forked child's wait status, the four run modes of
`DeepState_Run` and the test registry they iterate over.

Conventions of the embedding.

* A C string is the list of the characters that stand before its terminating
  NUL; a pointer into a string is the list that starts at that position.
* The registry is the singly linked list threaded through `prev`; a pointer to
  a descriptor is the list that starts at that descriptor and `NULL` is `[]`.
* The parent process is a function from a state to a result; the state holds
  the input buffer, its cursor, the number of children forked so far and the
  trace of the calls the parent made to the externally defined hooks.
* `malloc` and `fork` succeed. The `int` counters are unbounded integers: a
  count grows by at most 255 for each child forked, and signed overflow has no
  defined result to model.
* A call of `DeepState_Abandon` in the parent ends the function that made it:
  the header declares it `DEEPSTATE_NORETURN`.
-/

namespace DeepState

/-! ## C strings -/

/-- The characters of a C string, terminator excluded. -/
abbrev CStr := List Char

/-- The terminating character of a C string. -/
def NUL : Char := Char.ofNat 0

/-- A list is the content of a C string when no character of it is NUL. -/
def IsCStr (s : CStr) : Prop := NUL ∉ s

instance (s : CStr) : Decidable (IsCStr s) := by
  unfold IsCStr; infer_instance

/-- The code of a character as `unsigned char`. -/
def uchar (c : Char) : Int := (c.toNat : Int)

/-- The libc `strlen`. -/
def strlen (s : CStr) : Nat := s.length

/-- The libc `strchr`: the position of the first occurrence of `c`, the
terminator counting as part of the string. -/
def strchr : CStr → Char → Option CStr
  | [], c => if c = NUL then some [] else none
  | a :: as, c => if a = c then some (a :: as) else strchr as c

/-- The libc `strcmp`: the difference of the first pair of characters that
differ, read as `unsigned char`, the terminator being 0. -/
def strcmp : CStr → CStr → Int
  | [], [] => 0
  | [], b :: _ => 0 - uchar b
  | a :: _, [] => uchar a
  | a :: as, b :: bs => if a = b then strcmp as bs else uchar a - uchar b

/-- The libc `strncmp`: as `strcmp`, over at most `n` characters. -/
def strncmp : CStr → CStr → Nat → Int
  | _, _, 0 => 0
  | [], [], _ + 1 => 0
  | [], b :: _, _ + 1 => 0 - uchar b
  | a :: _, [], _ + 1 => uchar a
  | a :: as, b :: bs, n + 1 => if a = b then strncmp as bs n else uchar a - uchar b

/-! ## Saved test case files -/

/-- The array `extensions` of `DeepState_IsTestCaseFile`. -/
def extensions : List CStr := [".pass".toList, ".fail".toList, ".crash".toList]

/-- The loop of `DeepState_IsTestCaseFile` over the entries of `extensions`
that are still to be compared. -/
def DeepState_IsTestCaseFile.loop (suffix : CStr) : List CStr → Bool
  | [] => false
  | ext :: rest =>
    if strcmp suffix ext = 0 then true else DeepState_IsTestCaseFile.loop suffix rest

/-- Checks a filename to see if might be a saved test case. -/
def DeepState_IsTestCaseFile (name : CStr) : Bool :=
  match strchr name '.' with
  | none => false
  | some suffix => DeepState_IsTestCaseFile.loop suffix extensions

/-- The part of a name that starts at its first `.` and runs to the end. -/
def firstDotSuffix (s : CStr) : CStr := s.dropWhile (fun c => c != '.')

/-! ## Outcomes, descriptors and the registry -/

/-- The value `DeepState_TestRunPass` of `enum DeepState_TestRunResult`. -/
def DeepState_TestRunPass : Nat := 0

/-- The value `DeepState_TestRunFail` of `enum DeepState_TestRunResult`. -/
def DeepState_TestRunFail : Nat := 1

/-- The value `DeepState_TestRunCrash` of `enum DeepState_TestRunResult`. -/
def DeepState_TestRunCrash : Nat := 2

/-- The value `DeepState_TestRunAbandon` of `enum DeepState_TestRunResult`. -/
def DeepState_TestRunAbandon : Nat := 3

/-- The enumerators of `enum DeepState_TestRunResult`. -/
def TestRunResultValues : List Nat :=
  [DeepState_TestRunPass, DeepState_TestRunFail, DeepState_TestRunCrash,
   DeepState_TestRunAbandon]

/-- The constant `DeepState_InputSize`. -/
def DeepState_InputSize : Nat := 8192

/-- The `struct DeepState_TestInfo`, without its link `prev` (the list that
holds the descriptor carries it) and without `test_func` (the forked child
runs it; the parent sees only the wait status of that child). -/
structure DeepState_TestInfo where
  test_name : CStr
  file_name : CStr
  line_number : Nat
deriving DecidableEq, Repr

/-- A pointer to a descriptor: the descriptor and those reached along `prev`. -/
abbrev TestList := List DeepState_TestInfo

/-- The initializer that `_DeepState_EntryPoint` emits for a test:
`info.prev = DeepState_LastTestInfo; DeepState_LastTestInfo = &info`. The
result is the new `DeepState_LastTestInfo`. -/
def DeepState_Register (DeepState_LastTestInfo : TestList) (info : DeepState_TestInfo) :
    TestList :=
  info :: DeepState_LastTestInfo

/-- The registry after the initializers of `tests` ran in the order of the
list, starting from `DeepState_LastTestInfo = NULL`. -/
def registerAll (tests : List DeepState_TestInfo) : TestList :=
  tests.foldl DeepState_Register []

/-! ## The environment of the parent process -/

/-- What the C library reports for a file that `fopen` could open. -/
structure FileInfo where
  /-- The value of `fileno(fp)`. -/
  fileno : Int
  /-- The `st_size` that `fstat` stores, `none` when `fstat` fails. -/
  fstat : Option Nat
  /-- The bytes that `fread` can deliver. -/
  data : List Nat

/-- Everything the driver reads from outside: flags, environment, registry,
file system and the children it waits for. -/
structure World where
  DeepState_OptionsAreInitialized : Bool
  HAS_FLAG_input_test_dir : Bool
  FLAGS_input_test_dir : CStr
  HAS_FLAG_input_test_file : Bool
  FLAGS_input_test_file : CStr
  HAS_FLAG_input_test_files_dir : Bool
  FLAGS_input_test_files_dir : CStr
  HAS_FLAG_input_which_test : Bool
  FLAGS_input_which_test : CStr
  HAS_FLAG_output_test_dir : Bool
  FLAGS_abort_on_fail : Bool
  /-- Whether `getenv("DYNAMORIO_EXE_PATH")` is not `NULL`. -/
  getenv_DYNAMORIO_EXE_PATH : Bool
  /-- The global `DeepState_LastTestInfo` when the driver starts. -/
  DeepState_LastTestInfo : TestList
  /-- The libc `basename`. -/
  basename : CStr → CStr
  /-- The names `readdir` yields for a directory, `none` when `opendir` fails. -/
  opendir : CStr → Option (List CStr)
  /-- Whether `S_ISREG` holds of the mode `stat` stores for a path, `none` when
  `stat` fails and stores nothing. -/
  stat : CStr → Option Bool
  /-- Whether `S_ISREG` holds of the local `path_stat` before the first `stat`. -/
  path_stat : Bool
  /-- The stream `fopen(path, "r")` returns, `none` for `NULL`. -/
  fopen : CStr → Option FileInfo
  /-- The status `waitpid` stores for the k-th child the parent forked. -/
  waitpid : Nat → Int
  /-- The macro `WIFEXITED` of the platform. -/
  WIFEXITED : Int → Bool
  /-- The macro `WEXITSTATUS` of the platform. -/
  WEXITSTATUS : Int → Int

/-- The levels `DeepState_LogInfo` and `DeepState_LogError`. -/
inductive LogLevel where
  | DeepState_LogInfo
  | DeepState_LogError
deriving DecidableEq, Repr

/-- A call of the parent process that leaves the functions of the header. -/
inductive Event where
  | DeepState_Setup
  | DeepState_Teardown
  | DeepState_Begin (test : DeepState_TestInfo)
  /-- A `fork()` whose child runs `DeepState_RunTest(test)`, and the `waitpid`
  for that child. -/
  | fork_RunTest (test : DeepState_TestInfo)
  /-- A `fork()` whose child runs `DeepState_BeginDrFuzz(test)`. -/
  | fork_BeginDrFuzz (test : DeepState_TestInfo)
  /-- The call `waitpid(-1, NULL, 0)`. -/
  | waitpid_any
  | DeepState_SaveCrashingTest
  | DeepState_Crash
  | DeepState_LogFormat (level : LogLevel) (format : String) (args : List CStr)
deriving DecidableEq, Repr

/-- The state of the parent process. -/
structure State where
  DeepState_Input : List Nat
  DeepState_InputIndex : Nat
  /-- The number of children forked so far. -/
  forked : Nat
  /-- The calls made so far, oldest first. -/
  trace : List Event

/-- The state in which `main` calls the driver. -/
def State.init : State :=
  ⟨List.replicate DeepState_InputSize 0, 0, 0, []⟩

/-- How a function of the parent ends: it returns a value, or the process
calls `abort()`, or it calls `DeepState_Abandon`, which does not return. -/
inductive Res (α : Type) where
  | ret (a : α) (s : State)
  | abort (s : State)
  | abandon (reason : String) (s : State)

/-- The state in which a function ended. -/
def Res.state {α : Type} : Res α → State
  | .ret _ s => s
  | .abort s => s
  | .abandon _ s => s

/-- The value a function returned, when it returned. -/
def Res.value {α : Type} : Res α → Option α
  | .ret a _ => some a
  | .abort _ => none
  | .abandon _ _ => none

/-- Whether the process called `abort()`. -/
def Res.aborted {α : Type} : Res α → Bool
  | .abort _ => true
  | _ => false

/-- The calls made until a function ended. -/
def Res.trace {α : Type} (r : Res α) : List Event := r.state.trace

/-- Record a call. -/
def call (e : Event) (s : State) : State :=
  { s with trace := s.trace ++ [e] }

/-- The tests handed to `DeepState_Begin` in a trace, oldest first. -/
def begun : List Event → List DeepState_TestInfo
  | [] => []
  | .DeepState_Begin t :: es => t :: begun es
  | _ :: es => begun es

/-- The tests children were forked for in a trace, oldest first. -/
def ran : List Event → List DeepState_TestInfo
  | [] => []
  | .fork_RunTest t :: es => t :: ran es
  | _ :: es => ran es

/-! ## Loading the input buffer -/

/-- The libc `memset` over the first `n` bytes of a buffer. -/
def memset (buf : List Nat) (v n : Nat) : List Nat :=
  List.replicate (min n buf.length) v ++ buf.drop n

/-- The call `fread(buf, 1, n, fp)`: the number of bytes read and the buffer. -/
def fread (buf : List Nat) (n : Nat) (data : List Nat) : Nat × List Nat :=
  ((data.take n).length, data.take n ++ buf.drop (data.take n).length)

/-- Resets the global `DeepState_Input` buffer, then fills it with the data
found in the file `path`. -/
def DeepState_InitInputFromFile (w : World) (path : CStr) (s : State) : Res Unit :=
  match w.fopen path with
  | none => .abandon "Unable to open file" s
  | some fp =>
    if fp.fileno < 0 then
      .abandon "Tried to get file descriptor for invalid stream" s
    else
      match fp.fstat with
      | none => .abandon "Unable to access input file" s
      | some st_size =>
        if st_size > DeepState_InputSize then
          .abandon "File too large" s
        else
          let s1 : State :=
            { s with
              DeepState_Input := memset s.DeepState_Input 0 DeepState_InputSize
              DeepState_InputIndex := 0 }
          let r := fread s1.DeepState_Input st_size fp.data
          let s2 : State := { s1 with DeepState_Input := r.2 }
          if r.1 ≠ st_size then
            .abandon "Error reading file" s2
          else
            .ret () (call (.DeepState_LogFormat .DeepState_LogInfo
              "Initialized test input buffer with data from `%s`" [path]) s2)

/-! ## Running one test -/

/-- Fork and run `test`: the parent side. The child runs `DeepState_RunTest`
and never comes back into this function. -/
def DeepState_ForkAndRunTest (w : World) (test : DeepState_TestInfo) (s : State) :
    Nat × State :=
  let wstatus := w.waitpid s.forked
  let s1 : State := { call (.fork_RunTest test) s with forked := s.forked + 1 }
  if w.WIFEXITED wstatus then
    ((w.WEXITSTATUS wstatus % 256).toNat, s1)
  else
    (DeepState_TestRunCrash, s1)

/-- Run a single saved test case with input initialized from the file `name`
in directory `dir`. -/
def DeepState_RunSavedTestCase (w : World) (test : DeepState_TestInfo)
    (dir name : CStr) (s : State) : Res Nat :=
  let path := if strncmp dir [] (strlen dir) ≠ 0 then dir ++ '/' :: name else name
  match DeepState_InitInputFromFile w path s with
  | .abort s1 => .abort s1
  | .abandon reason s1 => .abandon reason s1
  | .ret _ s1 =>
    let r := DeepState_ForkAndRunTest w test (call (.DeepState_Begin test) s1)
    if r.1 = DeepState_TestRunCrash then
      let s2 := call (.DeepState_LogFormat .DeepState_LogError "Crashed: %s"
        [test.test_name]) r.2
      let s3 := if w.HAS_FLAG_output_test_dir then call .DeepState_SaveCrashingTest s2 else s2
      .ret r.1 (call .DeepState_Crash s3)
    else
      .ret r.1 r.2

/-! ## Replay of saved test cases -/

/-- The `readdir` loop of `DeepState_RunSavedCasesForTest` over the entries
still to be read, `num_failed_tests` being the count so far. -/
def DeepState_RunSavedCasesForTest.loop (w : World) (test : DeepState_TestInfo)
    (test_case_dir : CStr) : List CStr → Int → State → Res Int
  | [], num_failed_tests, s => .ret num_failed_tests s
  | d_name :: rest, num_failed_tests, s =>
    if DeepState_IsTestCaseFile d_name then
      match DeepState_RunSavedTestCase w test test_case_dir d_name s with
      | .abort s1 => .abort s1
      | .abandon reason s1 => .abandon reason s1
      | .ret result s1 =>
        if result ≠ DeepState_TestRunPass then
          DeepState_RunSavedCasesForTest.loop w test test_case_dir rest
            (num_failed_tests + 1) s1
        else
          DeepState_RunSavedCasesForTest.loop w test test_case_dir rest
            num_failed_tests s1
    else
      DeepState_RunSavedCasesForTest.loop w test test_case_dir rest num_failed_tests s

/-- Run a single test many times, initialized against each saved test case in
`FLAGS_input_test_dir`. -/
def DeepState_RunSavedCasesForTest (w : World) (test : DeepState_TestInfo) (s : State) :
    Res Int :=
  let test_file_name := w.basename test.file_name
  let test_case_dir :=
    w.FLAGS_input_test_dir ++ '/' :: test_file_name ++ '/' :: test.test_name
  match w.opendir test_case_dir with
  | none =>
    .ret 0 (call (.DeepState_LogFormat .DeepState_LogInfo
      "Skipping test `%s`, no saved test cases" [test.test_name]) s)
  | some entries => DeepState_RunSavedCasesForTest.loop w test test_case_dir entries 0 s

/-- The loop that `DeepState_RunSingleSavedTestCase` and
`DeepState_RunSingleSavedTestDir` both open with, from the descriptor `test`
on: the value of `test` when the loop is left. -/
def selectTest (w : World) : TestList → State → TestList × State
  | [], s => ([], s)
  | test :: prev, s =>
    if w.HAS_FLAG_input_which_test then
      if strncmp w.FLAGS_input_which_test test.test_name
          (strlen w.FLAGS_input_which_test) = 0 then
        (test :: prev, s)
      else
        selectTest w prev s
    else
      (test :: prev, call (.DeepState_LogFormat .DeepState_LogInfo
        "No test specified, defaulting to first test" []) s)

/-- Modelled from the spec: the function `DeepState_FirstTest`, declared in the
header and defined outside it; iteration starts at the last registered
descriptor. -/
def DeepState_FirstTest (w : World) : TestList := w.DeepState_LastTestInfo

/-- Run test from `FLAGS_input_test_file`, under `FLAGS_input_which_test` or
first test, if not defined. -/
def DeepState_RunSingleSavedTestCase (w : World) (s : State) : Res Int :=
  let sel := selectTest w (DeepState_FirstTest w) (call .DeepState_Setup s)
  match sel.1 with
  | [] =>
    .ret 0 (call (.DeepState_LogFormat .DeepState_LogInfo
      "Could not find matching test for %s" [w.FLAGS_input_which_test]) sel.2)
  | test :: _ =>
    match DeepState_RunSavedTestCase w test [] w.FLAGS_input_test_file sel.2 with
    | .abort s1 => .abort s1
    | .abandon reason s1 => .abandon reason s1
    | .ret result s1 =>
      if result ≠ DeepState_TestRunPass then
        if w.FLAGS_abort_on_fail then
          .abort s1
        else
          .ret (0 + 1) (call .DeepState_Teardown s1)
      else
        .ret 0 (call .DeepState_Teardown s1)

/-- The `readdir` loop of `DeepState_RunSingleSavedTestDir` over the entries
still to be read; `path_stat` tells whether `S_ISREG` holds of the mode the
local `path_stat` holds. -/
def DeepState_RunSingleSavedTestDir.loop (w : World) (test : DeepState_TestInfo) :
    List CStr → Bool → Int → State → Res Int
  | [], _, num_failed_tests, s => .ret num_failed_tests s
  | d_name :: rest, path_stat, num_failed_tests, s =>
    let path := w.FLAGS_input_test_files_dir ++ '/' :: d_name
    let path_stat1 :=
      match w.stat path with
      | some isreg => isreg
      | none => path_stat
    if path_stat1 then
      match DeepState_RunSavedTestCase w test w.FLAGS_input_test_files_dir d_name s with
      | .abort s1 => .abort s1
      | .abandon reason s1 => .abandon reason s1
      | .ret result s1 =>
        if result ≠ DeepState_TestRunPass then
          if w.FLAGS_abort_on_fail then
            .abort s1
          else
            DeepState_RunSingleSavedTestDir.loop w test rest path_stat1
              (num_failed_tests + 1) s1
        else
          DeepState_RunSingleSavedTestDir.loop w test rest path_stat1 num_failed_tests s1
    else
      DeepState_RunSingleSavedTestDir.loop w test rest path_stat1 num_failed_tests s

/-- Run tests from `FLAGS_input_test_files_dir`, under `FLAGS_input_which_test`
or first test, if not defined. -/
def DeepState_RunSingleSavedTestDir (w : World) (s : State) : Res Int :=
  let sel := selectTest w (DeepState_FirstTest w) (call .DeepState_Setup s)
  match sel.1 with
  | [] =>
    .ret 0 (call (.DeepState_LogFormat .DeepState_LogInfo
      "Could not find matching test for %s" [w.FLAGS_input_which_test]) sel.2)
  | test :: _ =>
    match w.opendir w.FLAGS_input_test_files_dir with
    | none =>
      .ret 0 (call (.DeepState_LogFormat .DeepState_LogInfo "No tests to run." []) sel.2)
    | some entries =>
      DeepState_RunSingleSavedTestDir.loop w test entries w.path_stat 0 sel.2

/-- The loop of `DeepState_RunSavedTestCases` from the descriptor `test` on. -/
def DeepState_RunSavedTestCases.loop (w : World) : TestList → Int → State → Res Int
  | [], num_failed_tests, s => .ret num_failed_tests s
  | test :: prev, num_failed_tests, s =>
    match DeepState_RunSavedCasesForTest w test s with
    | .abort s1 => .abort s1
    | .abandon reason s1 => .abandon reason s1
    | .ret n s1 => DeepState_RunSavedTestCases.loop w prev (num_failed_tests + n) s1

/-- For each test unit and case, see if there are input files in the expected
directories. If so, use them to initialize `DeepState_Input`, then run the
test. If not, skip the test. -/
def DeepState_RunSavedTestCases (w : World) (s : State) : Res Int :=
  match DeepState_RunSavedTestCases.loop w (DeepState_FirstTest w) 0
      (call .DeepState_Setup s) with
  | .abort s1 => .abort s1
  | .abandon reason s1 => .abandon reason s1
  | .ret num_failed_tests s1 => .ret num_failed_tests (call .DeepState_Teardown s1)

/-! ## The driver -/

/-- The loop of the fresh run in `DeepState_Run` from the descriptor `test`
on, in the parent process. -/
def DeepState_Run.loop (w : World) (use_drfuzz : Bool) : TestList → Int → State → Int × State
  | [], num_failed_tests, s => (num_failed_tests, s)
  | test :: prev, num_failed_tests, s =>
    if use_drfuzz then
      DeepState_Run.loop w use_drfuzz prev num_failed_tests
        { call (.fork_BeginDrFuzz test) s with forked := s.forked + 1 }
    else
      let r := DeepState_ForkAndRunTest w test (call (.DeepState_Begin test) s)
      DeepState_Run.loop w use_drfuzz prev (num_failed_tests + (r.1 : Int)) r.2

/-- Start DeepState and run the tests. Returns the number of failed tests. -/
def DeepState_Run (w : World) (s : State) : Res Int :=
  if !w.DeepState_OptionsAreInitialized then
    .abandon "Please call DeepState_InitOptions(argc, argv) in main." s
  else if w.HAS_FLAG_input_test_dir then
    DeepState_RunSavedTestCases w s
  else if w.HAS_FLAG_input_test_file then
    DeepState_RunSingleSavedTestCase w s
  else if w.HAS_FLAG_input_test_files_dir then
    DeepState_RunSingleSavedTestDir w s
  else
    let use_drfuzz := w.getenv_DYNAMORIO_EXE_PATH
    let r := DeepState_Run.loop w use_drfuzz (DeepState_FirstTest w) 0
      (call .DeepState_Setup s)
    let s1 := if use_drfuzz then call .waitpid_any r.2 else r.2
    .ret r.1 (call .DeepState_Teardown s1)

/-! ## Concrete environments -/

/-- The macro `WIFEXITED` of Linux: the low seven bits of the status are 0. -/
def linux_WIFEXITED (wstatus : Int) : Bool := wstatus % 128 == 0

/-- The macro `WEXITSTATUS` of Linux: bits 8 to 15 of the status. -/
def linux_WEXITSTATUS (wstatus : Int) : Int := (wstatus / 256) % 256

/-- The Linux wait status of a child that called `exit(code)`. -/
def exited (code : Nat) : Int := ((code % 256 : Nat) : Int) * 256

/-- The Linux wait status of a child that signal `sig` killed. -/
def signaled (sig : Nat) : Int := ((sig % 128 : Nat) : Int)

/-- An environment with no flag set, no test registered and an empty file
system, on Linux; every child exits with code 0. -/
def World.empty : World where
  DeepState_OptionsAreInitialized := true
  HAS_FLAG_input_test_dir := false
  FLAGS_input_test_dir := []
  HAS_FLAG_input_test_file := false
  FLAGS_input_test_file := []
  HAS_FLAG_input_test_files_dir := false
  FLAGS_input_test_files_dir := []
  HAS_FLAG_input_which_test := false
  FLAGS_input_which_test := []
  HAS_FLAG_output_test_dir := false
  FLAGS_abort_on_fail := false
  getenv_DYNAMORIO_EXE_PATH := false
  DeepState_LastTestInfo := []
  basename := fun path => path
  opendir := fun _ => none
  stat := fun _ => none
  path_stat := false
  fopen := fun _ => none
  waitpid := fun _ => exited 0
  WIFEXITED := linux_WIFEXITED
  WEXITSTATUS := linux_WEXITSTATUS

/-- A test `name` defined at line 10 of `foo.c`. -/
def testNamed (name : String) : DeepState_TestInfo :=
  ⟨name.toList, "foo.c".toList, 10⟩

/-- A readable corpus file of four bytes. -/
def smallFile : FileInfo := ⟨3, some 4, [170, 170, 170, 170]⟩

/-- Fresh run of one registered test whose child is killed by signal 11. -/
def World.oneCrash : World :=
  { World.empty with
    DeepState_LastTestInfo := registerAll [testNamed "T4"]
    waitpid := fun _ => signaled 11 }

/-- Fresh run of one registered test whose child exits with code 3. -/
def World.oneExit3 : World :=
  { World.empty with
    DeepState_LastTestInfo := registerAll [testNamed "T1"]
    waitpid := fun _ => exited 3 }

/-- Fresh run of one registered test whose child exits with code 7. -/
def World.oneExit7 : World :=
  { World.empty with
    DeepState_LastTestInfo := registerAll [testNamed "T1"]
    waitpid := fun _ => exited 7 }

/-- Replay of the directory `corpus`, which holds the regular file `a.bin`,
against the one registered test; the child exits with code 0. -/
def World.dirReplay : World :=
  { World.empty with
    HAS_FLAG_input_test_files_dir := true
    FLAGS_input_test_files_dir := "corpus".toList
    DeepState_LastTestInfo := registerAll [testNamed "T1"]
    opendir := fun path => if path = "corpus".toList then some ["a.bin".toList] else none
    stat := fun path => if path = "corpus/a.bin".toList then some true else none
    fopen := fun path => if path = "corpus/a.bin".toList then some smallFile else none }

/-- Replay of the file `seed.bin` with the selector `T9`, which is a prefix of
the name of no registered test. -/
def World.noMatch : World :=
  { World.empty with
    HAS_FLAG_input_test_file := true
    FLAGS_input_test_file := "seed.bin".toList
    HAS_FLAG_input_which_test := true
    FLAGS_input_which_test := "T9".toList
    DeepState_LastTestInfo := registerAll [testNamed "T1"]
    fopen := fun path => if path = "seed.bin".toList then some smallFile else none }

/-- Replay of the per-test corpora under `corpus` with `abort_on_fail` set:
the directory of test `T6` holds `a.fail` and `b.pass`; the child run on the
first exits with code 1 (Fail), the child run on the second with code 0. -/
def World.corpusAbort : World :=
  { World.empty with
    HAS_FLAG_input_test_dir := true
    FLAGS_input_test_dir := "corpus".toList
    FLAGS_abort_on_fail := true
    DeepState_LastTestInfo := registerAll [testNamed "T6"]
    opendir := fun path =>
      if path = "corpus/foo.c/T6".toList then some ["a.fail".toList, "b.pass".toList]
      else none
    fopen := fun path =>
      if path = "corpus/foo.c/T6/a.fail".toList ∨ path = "corpus/foo.c/T6/b.pass".toList
      then some smallFile else none
    waitpid := fun k => if k = 0 then exited 1 else exited 0 }

/-- Replay of the file `seed.bin` with the selector `Foo`, after `Foo_A` and
then `Foo_B` were registered; the child exits with code 0. -/
def World.twoTests : World :=
  { World.empty with
    HAS_FLAG_input_test_file := true
    FLAGS_input_test_file := "seed.bin".toList
    HAS_FLAG_input_which_test := true
    FLAGS_input_which_test := "Foo".toList
    DeepState_LastTestInfo := registerAll [testNamed "Foo_A", testNamed "Foo_B"]
    fopen := fun path => if path = "seed.bin".toList then some smallFile else none }

/-- The three replay flags all set, one test registered, no file system. -/
def World.allFlags : World :=
  { World.empty with
    HAS_FLAG_input_test_dir := true
    FLAGS_input_test_dir := "corpus".toList
    HAS_FLAG_input_test_file := true
    FLAGS_input_test_file := "seed.bin".toList
    HAS_FLAG_input_test_files_dir := true
    FLAGS_input_test_files_dir := "corpus".toList
    DeepState_LastTestInfo := registerAll [testNamed "T1"] }

/-- The flags `input_test_file` and `input_test_files_dir` set, not
`input_test_dir`. -/
def World.fileAndFilesDir : World :=
  { World.allFlags with HAS_FLAG_input_test_dir := false }

/-- As `World.twoTests`, with the selector `Foo_A`. -/
def World.selectA : World :=
  { World.twoTests with FLAGS_input_which_test := "Foo_A".toList }

/-! ## The child process -/

/-- How the call `test->test_func()` of `DeepState_RunTest` ends. -/
inductive TestFuncEnd where
  /-- The function returns to `DeepState_RunTest`. -/
  | returned
  /-- Control comes back through `longjmp` on `DeepState_ReturnToRun`, so that
  `setjmp` returns a second time, with a value other than 0; the jump is made
  inside the test function or, in a C++ build, by `DeepState_Fail()` in the
  `catch` block. -/
  | jumped
  /-- The process ends inside the function: a signal kills it, or the test
  calls `exit` itself. -/
  | ended
deriving DecidableEq, Repr

/-- A call of the child process that leaves the functions of the header. -/
inductive ChildEvent where
  | DeepState_LogFormat (level : LogLevel) (format : String) (args : List CStr)
  | DeepState_SaveFailingTest
  | DeepState_SavePassingTest
deriving DecidableEq, Repr

/-- What the child did in `DeepState_RunTest`. -/
structure ChildRun where
  /-- The argument of the call of `exit` that `DeepState_RunTest` made, `none`
  when the process ended inside the test function. -/
  exit_code : Option Nat
  /-- The calls made, oldest first. -/
  trace : List ChildEvent
deriving DecidableEq, Repr

/-- Run a test case, assuming we have forked from the test harness to do so.
`DeepState_CatchFail` and `DeepState_CatchAbandoned` are the values the
functions of these names return after the jump. -/
def DeepState_RunTest (w : World) (test : DeepState_TestInfo) (test_func : TestFuncEnd)
    (DeepState_CatchFail DeepState_CatchAbandoned : Bool) : ChildRun :=
  match test_func with
  | .returned => ⟨some DeepState_TestRunPass, []⟩
  | .ended => ⟨none, []⟩
  | .jumped =>
    if DeepState_CatchFail then
      ⟨some DeepState_TestRunFail,
        [.DeepState_LogFormat .DeepState_LogError "Failed: %s" [test.test_name]] ++
          (if w.HAS_FLAG_output_test_dir then [.DeepState_SaveFailingTest] else [])⟩
    else if DeepState_CatchAbandoned then
      ⟨some DeepState_TestRunAbandon,
        [.DeepState_LogFormat .DeepState_LogError "Abandoned: %s" [test.test_name]]⟩
    else
      ⟨some DeepState_TestRunPass,
        [.DeepState_LogFormat .DeepState_LogInfo "Passed: %s" [test.test_name]] ++
          (if w.HAS_FLAG_output_test_dir then [.DeepState_SavePassingTest] else [])⟩

/-- As `World.oneCrash`, with `output_test_dir` set. -/
def World.oneCrashSave : World :=
  { World.oneCrash with HAS_FLAG_output_test_dir := true }

/-- As `World.dirReplay`, with `output_test_dir` set and a child that signal 11
kills. -/
def World.dirCrashSave : World :=
  { World.dirReplay with
    HAS_FLAG_output_test_dir := true
    waitpid := fun _ => signaled 11 }

/-- A corpus file of 8193 bytes, one more than the input buffer holds. -/
def largeFile : FileInfo := ⟨3, some 8193, List.replicate 8193 7⟩

/-- An environment whose file `big.bin` is `largeFile`. -/
def World.tooLarge : World :=
  { World.empty with
    fopen := fun path => if path = "big.bin".toList then some largeFile else none }

end DeepState

namespace DeepState

/-! ## Facts about the C string functions -/

theorem uchar_injective {a b : Char} (h : uchar a = uchar b) : a = b := by
  have h1 : a.toNat = b.toNat := by
    unfold uchar at h
    exact_mod_cast h
  rw [← Char.ofNat_toNat a, ← Char.ofNat_toNat b, h1]

theorem uchar_ne_zero {a : Char} (h : a ≠ NUL) : uchar a ≠ 0 := by
  intro h0
  apply h
  apply uchar_injective
  rw [h0]
  rfl

theorem uchar_sub_ne_zero {a b : Char} (h : a ≠ b) : uchar a - uchar b ≠ 0 := by
  intro h0
  exact h (uchar_injective (by omega))

theorem isCStr_cons {a : Char} {s : CStr} : IsCStr (a :: s) ↔ a ≠ NUL ∧ IsCStr s := by
  unfold IsCStr
  simp [eq_comm]

theorem strcmp_eq_zero_iff (a b : CStr) (ha : IsCStr a) (hb : IsCStr b) :
    strcmp a b = 0 ↔ a = b := by
  induction a generalizing b with
  | nil =>
    cases b with
    | nil => simp [strcmp]
    | cons y ys =>
      have hy := uchar_ne_zero (isCStr_cons.1 hb).1
      simp [strcmp, hy]
  | cons x xs ih =>
    have hx := uchar_ne_zero (isCStr_cons.1 ha).1
    cases b with
    | nil => simp [strcmp, hx]
    | cons y ys =>
      by_cases hxy : x = y
      · subst hxy
        simp [strcmp, ih ys (isCStr_cons.1 ha).2 (isCStr_cons.1 hb).2]
      · simp [strcmp, hxy, uchar_sub_ne_zero hxy]

theorem strncmp_eq_zero_iff (p t : CStr) (hp : IsCStr p) :
    strncmp p t (strlen p) = 0 ↔ p <+: t := by
  induction p generalizing t with
  | nil => simp [strncmp, strlen]
  | cons x xs ih =>
    have hx := uchar_ne_zero (isCStr_cons.1 hp).1
    cases t with
    | nil => simp [strncmp, strlen, hx]
    | cons y ys =>
      have ih1 := ih ys (isCStr_cons.1 hp).2
      unfold strlen at ih1
      by_cases hxy : x = y
      · subst hxy
        simp [strncmp, strlen, ih1, List.cons_prefix_cons]
      · simp [strncmp, strlen, hxy, uchar_sub_ne_zero hxy, List.cons_prefix_cons]

theorem dot_ne_NUL : ('.' : Char) ≠ NUL := by decide

theorem strchr_dot (s : CStr) :
    strchr s '.' = if '.' ∈ s then some (firstDotSuffix s) else none := by
  induction s with
  | nil => simp [strchr, dot_ne_NUL]
  | cons x xs ih =>
    by_cases hx : x = '.'
    · subst hx
      simp [strchr, firstDotSuffix, List.dropWhile]
    · have hx1 : ¬ ('.' = x) := fun h => hx h.symm
      have hx2 : (x != '.') = true := by simp [hx]
      simp only [strchr, if_neg hx, ih, List.mem_cons, hx1, false_or]
      simp [firstDotSuffix, List.dropWhile, hx2]

theorem isCStr_firstDotSuffix {s : CStr} (h : IsCStr s) : IsCStr (firstDotSuffix s) := by
  unfold IsCStr firstDotSuffix at *
  intro hmem
  exact h ((List.dropWhile_sublist _).subset hmem)

theorem isTestCaseFile_loop_iff (suffix : CStr) (hs : IsCStr suffix) (exts : List CStr)
    (he : ∀ e ∈ exts, IsCStr e) :
    DeepState_IsTestCaseFile.loop suffix exts = true ↔ suffix ∈ exts := by
  induction exts with
  | nil => simp [DeepState_IsTestCaseFile.loop]
  | cons e es ih =>
    have h1 := strcmp_eq_zero_iff suffix e hs (he e (by simp))
    have h2 := ih (fun x hx => he x (by simp [hx]))
    by_cases hse : suffix = e
    · have h3 : strcmp suffix e = 0 := h1.2 hse
      simp only [DeepState_IsTestCaseFile.loop, h3, if_true, true_iff]
      simp [hse]
    · have h3 : ¬ strcmp suffix e = 0 := fun h => hse (h1.1 h)
      simp [DeepState_IsTestCaseFile.loop, h3, h2, hse]

theorem extensions_isCStr : ∀ e ∈ extensions, IsCStr e := by decide

theorem isTestCaseFile_eq_true_iff (s : CStr) (h : IsCStr s) :
    DeepState_IsTestCaseFile s = true ↔ '.' ∈ s ∧ firstDotSuffix s ∈ extensions := by
  unfold DeepState_IsTestCaseFile
  rw [strchr_dot]
  by_cases hd : '.' ∈ s
  · simp only [if_pos hd, hd, true_and]
    exact isTestCaseFile_loop_iff _ (isCStr_firstDotSuffix h) _ extensions_isCStr
  · simp [hd]

/-! ## The saved-test-case file filter -/

/-- C1: a name is taken for a saved test case exactly when it contains a `.`
and the part from its first `.` to the end is `.pass`, `.fail` or `.crash`;
so a name without a `.` is rejected, and so is a name whose first-dot suffix
is an outcome suffix followed by more characters. -/
theorem isTestCaseFile_iff_firstDotSuffix (s : CStr) (h : IsCStr s) :
    (DeepState_IsTestCaseFile s = true ↔
      '.' ∈ s ∧ (firstDotSuffix s = ".pass".toList ∨ firstDotSuffix s = ".fail".toList ∨
        firstDotSuffix s = ".crash".toList)) ∧
    ('.' ∉ s → DeepState_IsTestCaseFile s = false) ∧
    (∀ ext x, ext ∈ extensions → x ≠ [] → firstDotSuffix s = ext ++ x →
      DeepState_IsTestCaseFile s = false) := by
  have key := isTestCaseFile_eq_true_iff s h
  refine ⟨?_, ?_, ?_⟩
  · rw [key]
    simp [extensions]
  · intro hd
    rw [← Bool.not_eq_true, key]
    exact fun hh => hd hh.1
  · intro ext x hext hx hsuf
    rw [← Bool.not_eq_true, key]
    rintro ⟨_, hmem⟩
    rw [hsuf] at hmem
    apply hx
    simp only [extensions, List.mem_cons, List.mem_singleton, List.not_mem_nil, or_false]
      at hext hmem
    rcases hext with rfl | rfl | rfl <;> rcases hmem with hm | hm | hm <;>
      simp_all

/-- Witness of C1 at the names `xpass` and `x.passx` of the spec: both are
rejected. -/
theorem isTestCaseFile_iff_firstDotSuffix_witness :
    IsCStr "xpass".toList ∧ IsCStr "x.passx".toList ∧
    DeepState_IsTestCaseFile "xpass".toList = false ∧
    DeepState_IsTestCaseFile "x.passx".toList = false :=
  ⟨by decide, by decide,
    (isTestCaseFile_iff_firstDotSuffix "xpass".toList (by decide)).2.1 (by decide),
    (isTestCaseFile_iff_firstDotSuffix "x.passx".toList (by decide)).2.2
      ".pass".toList "x".toList (by decide) (by decide) (by decide)⟩

/-- C2, refuted as stated: `x.y.pass` and `foo.bar.pass` are rejected, because
the comparison starts at the first `.` of the name, where the suffixes are
`.y.pass` and `.bar.pass`. -/
theorem isTestCaseFile_multi_dot_rejected :
    DeepState_IsTestCaseFile "x.y.pass".toList = false ∧
    DeepState_IsTestCaseFile "foo.bar.pass".toList = false ∧
    strchr "x.y.pass".toList '.' = some ".y.pass".toList ∧
    strchr "foo.bar.pass".toList '.' = some ".bar.pass".toList := by
  decide

theorem count_dot_firstDotSuffix (s : CStr) :
    (firstDotSuffix s).count '.' = s.count '.' := by
  induction s with
  | nil => rfl
  | cons x xs ih =>
    by_cases hx : x = '.'
    · subst hx
      simp [firstDotSuffix, List.dropWhile]
    · have hx2 : (x != '.') = true := by simp [hx]
      have hstep : firstDotSuffix (x :: xs) = firstDotSuffix xs := by
        simp [firstDotSuffix, List.dropWhile, hx2]
      rw [hstep, ih]
      simp [List.count_cons, hx]

theorem extensions_count_dot : ∀ e ∈ extensions, e.count '.' = 1 := by decide

/-- C2, amended: a name with two or more `.` is never taken for a saved test
case, also when it ends in `.pass`, `.fail` or `.crash`: the part compared
starts at the first `.` and so holds every `.` of the name, while each of
the three extensions holds one. -/
theorem isTestCaseFile_multi_dot_false (s : CStr) (h : IsCStr s)
    (hdots : 2 ≤ s.count '.') : DeepState_IsTestCaseFile s = false := by
  rw [← Bool.not_eq_true, isTestCaseFile_eq_true_iff s h]
  rintro ⟨_, hmem⟩
  have h1 := extensions_count_dot _ hmem
  rw [count_dot_firstDotSuffix] at h1
  omega

/-- Witness of C2 as amended, at the names `x.y.pass` and `foo.bar.pass` of the
spec: each holds two `.` and is rejected. -/
theorem isTestCaseFile_multi_dot_false_witness :
    IsCStr "x.y.pass".toList ∧ 2 ≤ "x.y.pass".toList.count '.' ∧
    DeepState_IsTestCaseFile "x.y.pass".toList = false ∧
    IsCStr "foo.bar.pass".toList ∧ 2 ≤ "foo.bar.pass".toList.count '.' ∧
    DeepState_IsTestCaseFile "foo.bar.pass".toList = false :=
  ⟨by decide, by decide,
    isTestCaseFile_multi_dot_false "x.y.pass".toList (by decide) (by decide),
    by decide, by decide,
    isTestCaseFile_multi_dot_false "foo.bar.pass".toList (by decide) (by decide)⟩

/-! ## Decoding the wait status -/

/-- C4: when the child exited normally with a code `c` of 0 to 255 the
outcome that `DeepState_ForkAndRunTest` returns has the numeric value `c`, and
when the child did not exit normally the outcome is `DeepState_TestRunCrash`,
which is 2. -/
theorem forkAndRunTest_decodes_wait_status (w : World) (test : DeepState_TestInfo)
    (s : State) :
    (∀ c : Nat, c ≤ 255 → w.WIFEXITED (w.waitpid s.forked) = true →
      w.WEXITSTATUS (w.waitpid s.forked) = (c : Int) →
      (DeepState_ForkAndRunTest w test s).1 = c) ∧
    (w.WIFEXITED (w.waitpid s.forked) = false →
      (DeepState_ForkAndRunTest w test s).1 = DeepState_TestRunCrash ∧
      DeepState_TestRunCrash = 2) := by
  refine ⟨?_, ?_⟩
  · intro c hc hex hst
    simp only [DeepState_ForkAndRunTest, hex, if_true, hst]
    omega
  · intro hex
    simp [DeepState_ForkAndRunTest, hex, DeepState_TestRunCrash]

/-- Witness of C4: a child that exits with code 3 gives the outcome 3, and a
child killed by signal 11 gives the outcome 2. -/
theorem forkAndRunTest_decodes_wait_status_witness :
    (DeepState_ForkAndRunTest World.oneExit3 (testNamed "T1") State.init).1 = 3 ∧
    (DeepState_ForkAndRunTest World.oneCrash (testNamed "T4") State.init).1 = 2 :=
  ⟨(forkAndRunTest_decodes_wait_status World.oneExit3 (testNamed "T1") State.init).1 3
      (by decide) (by decide) (by decide),
    ((forkAndRunTest_decodes_wait_status World.oneCrash (testNamed "T4") State.init).2
      (by decide)).1⟩

/-- C5, refuted as stated: a child that exits normally with code 7 gives the
outcome 7, which is none of the four enumerators and is not
`DeepState_TestRunCrash`. -/
theorem forkAndRunTest_exit7_not_crash :
    World.oneExit7.WIFEXITED (World.oneExit7.waitpid State.init.forked) = true ∧
    World.oneExit7.WEXITSTATUS (World.oneExit7.waitpid State.init.forked) = 7 ∧
    (DeepState_ForkAndRunTest World.oneExit7 (testNamed "T1") State.init).1 = 7 ∧
    (DeepState_ForkAndRunTest World.oneExit7 (testNamed "T1") State.init).1
      ∉ TestRunResultValues ∧
    (DeepState_ForkAndRunTest World.oneExit7 (testNamed "T1") State.init).1
      ≠ DeepState_TestRunCrash := by
  decide

/-- C5, amended: the outcome of `DeepState_ForkAndRunTest` is a number of 0 to
255; it is one of the four enumerators exactly when the child did not exit
normally (the outcome is then `DeepState_TestRunCrash`) or exited normally
with a code whose low eight bits are at most 3; a child that exits normally
with another code gets that code as its outcome. -/
theorem forkAndRunTest_result_in_enum_iff (w : World) (test : DeepState_TestInfo)
    (s : State) :
    (DeepState_ForkAndRunTest w test s).1 ≤ 255 ∧
    ((DeepState_ForkAndRunTest w test s).1 ∈ TestRunResultValues ↔
      (w.WIFEXITED (w.waitpid s.forked) = false ∨
        w.WEXITSTATUS (w.waitpid s.forked) % 256 ≤ 3)) ∧
    ((DeepState_ForkAndRunTest w test s).1 =
      if w.WIFEXITED (w.waitpid s.forked) = true
      then (w.WEXITSTATUS (w.waitpid s.forked) % 256).toNat
      else DeepState_TestRunCrash) := by
  cases hex : w.WIFEXITED (w.waitpid s.forked)
  · simp [DeepState_ForkAndRunTest, hex, DeepState_TestRunCrash, TestRunResultValues]
  · simp only [DeepState_ForkAndRunTest, hex, if_true, TestRunResultValues,
      DeepState_TestRunPass, DeepState_TestRunFail, DeepState_TestRunCrash,
      DeepState_TestRunAbandon, List.mem_cons, List.mem_singleton, List.not_mem_nil,
      or_false, false_or, and_true, Bool.true_eq_false]
    omega

/-! ## The fresh run and the choice of the mode -/

theorem ran_append (a b : List Event) : ran (a ++ b) = ran a ++ ran b := by
  induction a with
  | nil => simp [ran]
  | cons e es ih => cases e <;> simp [ran, ih]

theorem call_trace (e : Event) (s : State) : (call e s).trace = s.trace ++ [e] := rfl

theorem forkAndRunTest_trace (w : World) (test : DeepState_TestInfo) (s : State) :
    (DeepState_ForkAndRunTest w test s).2.trace = s.trace ++ [.fork_RunTest test] := by
  unfold DeepState_ForkAndRunTest
  by_cases h : w.WIFEXITED (w.waitpid s.forked) = true <;> simp [h, call]

theorem run_loop_ran (w : World) (l : TestList) (n : Int) (s : State) :
    ran (DeepState_Run.loop w false l n s).2.trace = ran s.trace ++ l := by
  induction l generalizing n s with
  | nil => simp [DeepState_Run.loop]
  | cons t ts ih =>
    simp [DeepState_Run.loop, ih, forkAndRunTest_trace, call_trace, ran_append, ran]

/-- C3: the header announces that `DeepState_Run` returns the number of failed
tests, yet the fresh run of one registered test whose child is killed by a
signal returns 2: one test ran and did not pass, and the driver added the
numeric value of its outcome `DeepState_TestRunCrash` to the count. -/
theorem run_fresh_one_crash_returns_two :
    World.oneCrash.HAS_FLAG_input_test_dir = false ∧
    World.oneCrash.HAS_FLAG_input_test_file = false ∧
    World.oneCrash.HAS_FLAG_input_test_files_dir = false ∧
    World.oneCrash.getenv_DYNAMORIO_EXE_PATH = false ∧
    ran (DeepState_Run World.oneCrash State.init).trace = [testNamed "T4"] ∧
    (DeepState_ForkAndRunTest World.oneCrash (testNamed "T4") State.init).1
      = DeepState_TestRunCrash ∧
    (DeepState_Run World.oneCrash State.init).value = some 2 := by
  decide

/-- C6: once the options are initialized the driver picks its mode by the
first flag that is set, in the order `input_test_dir`, `input_test_file`,
`input_test_files_dir`, whatever the later flags hold; with none of the three
set it makes the fresh run, which (without Dr. Fuzz) forks one child for every
registered test, in iteration order, between one call of `DeepState_Setup`
and one of `DeepState_Teardown`. -/
theorem run_mode_priority (w : World) (s : State)
    (hinit : w.DeepState_OptionsAreInitialized = true) :
    (w.HAS_FLAG_input_test_dir = true →
      DeepState_Run w s = DeepState_RunSavedTestCases w s) ∧
    (w.HAS_FLAG_input_test_dir = false → w.HAS_FLAG_input_test_file = true →
      DeepState_Run w s = DeepState_RunSingleSavedTestCase w s) ∧
    (w.HAS_FLAG_input_test_dir = false → w.HAS_FLAG_input_test_file = false →
      w.HAS_FLAG_input_test_files_dir = true →
      DeepState_Run w s = DeepState_RunSingleSavedTestDir w s) ∧
    (w.HAS_FLAG_input_test_dir = false → w.HAS_FLAG_input_test_file = false →
      w.HAS_FLAG_input_test_files_dir = false →
      DeepState_Run w s =
        .ret (DeepState_Run.loop w w.getenv_DYNAMORIO_EXE_PATH (DeepState_FirstTest w) 0
            (call .DeepState_Setup s)).1
          (call .DeepState_Teardown
            (if w.getenv_DYNAMORIO_EXE_PATH = true then
              call .waitpid_any
                (DeepState_Run.loop w w.getenv_DYNAMORIO_EXE_PATH (DeepState_FirstTest w) 0
                  (call .DeepState_Setup s)).2
            else
              (DeepState_Run.loop w w.getenv_DYNAMORIO_EXE_PATH (DeepState_FirstTest w) 0
                (call .DeepState_Setup s)).2)) ∧
      (w.getenv_DYNAMORIO_EXE_PATH = false →
        ran (DeepState_Run w s).trace = ran s.trace ++ DeepState_FirstTest w)) := by
  refine ⟨?_, ?_, ?_, ?_⟩
  · intro h1
    simp [DeepState_Run, hinit, h1]
  · intro h1 h2
    simp [DeepState_Run, hinit, h1, h2]
  · intro h1 h2 h3
    simp [DeepState_Run, hinit, h1, h2, h3]
  · intro h1 h2 h3
    refine ⟨by simp [DeepState_Run, hinit, h1, h2, h3], ?_⟩
    intro h4
    simp [DeepState_Run, hinit, h1, h2, h3, h4, Res.trace, Res.state, call_trace,
      ran_append, run_loop_ran, ran]

/-- Witness of C6: with all three flags set the driver replays the per-test
corpora, with the last two set it replays the single file, with only
`input_test_files_dir` set it replays the directory, and with none set it
forks a child for the one registered test. -/
theorem run_mode_priority_witness :
    DeepState_Run World.allFlags State.init
      = DeepState_RunSavedTestCases World.allFlags State.init ∧
    DeepState_Run World.fileAndFilesDir State.init
      = DeepState_RunSingleSavedTestCase World.fileAndFilesDir State.init ∧
    DeepState_Run World.dirReplay State.init
      = DeepState_RunSingleSavedTestDir World.dirReplay State.init ∧
    ran (DeepState_Run World.oneCrash State.init).trace
      = ran State.init.trace ++ DeepState_FirstTest World.oneCrash :=
  ⟨(run_mode_priority World.allFlags State.init (by decide)).1 (by decide),
    (run_mode_priority World.fileAndFilesDir State.init (by decide)).2.1
      (by decide) (by decide),
    (run_mode_priority World.dirReplay State.init (by decide)).2.2.1
      (by decide) (by decide) (by decide),
    ((run_mode_priority World.oneCrash State.init (by decide)).2.2.2
      (by decide) (by decide) (by decide)).2 (by decide)⟩

/-! ## Setup, teardown and abort-on-fail -/

/-- C7: the replay of a directory returns without a call of
`DeepState_Teardown`, here after one passing run of the one regular file of
the directory; and the replay of a single file returns without it when the
selector matches no test. `DeepState_Setup` was called once in both. -/
theorem replay_returns_without_teardown :
    (DeepState_Run World.dirReplay State.init).value = some 0 ∧
    ran (DeepState_Run World.dirReplay State.init).trace = [testNamed "T1"] ∧
    (DeepState_Run World.dirReplay State.init).trace.count .DeepState_Setup = 1 ∧
    (DeepState_Run World.dirReplay State.init).trace.count .DeepState_Teardown = 0 ∧
    (DeepState_Run World.noMatch State.init).value = some 0 ∧
    (DeepState_Run World.noMatch State.init).trace.count .DeepState_Setup = 1 ∧
    (DeepState_Run World.noMatch State.init).trace.count .DeepState_Teardown = 0 := by
  decide

/-- C8: with `abort_on_fail` set, the replay of the per-test corpora goes on
after a run that did not pass: the run on `a.fail` gives the outcome
`DeepState_TestRunFail`, the run on `b.pass` follows it, and the driver
returns the count 1 without a call of `abort()`. -/
theorem corpus_replay_ignores_abort_on_fail :
    World.corpusAbort.HAS_FLAG_input_test_dir = true ∧
    World.corpusAbort.FLAGS_abort_on_fail = true ∧
    (DeepState_ForkAndRunTest World.corpusAbort (testNamed "T6") State.init).1
      = DeepState_TestRunFail ∧
    ran (DeepState_Run World.corpusAbort State.init).trace
      = [testNamed "T6", testNamed "T6"] ∧
    (DeepState_Run World.corpusAbort State.init).aborted = false ∧
    (DeepState_Run World.corpusAbort State.init).value = some 1 := by
  decide

/-! ## The choice of the test in the single-test replay modes -/

theorem ran_initInputFromFile (w : World) (path : CStr) (s : State) :
    ran (DeepState_InitInputFromFile w path s).trace = ran s.trace := by
  unfold DeepState_InitInputFromFile
  split
  · rfl
  · split
    · rfl
    · split
      · rfl
      · split
        · rfl
        · dsimp only
          split <;> simp [Res.trace, Res.state, call_trace, ran_append, ran]

theorem initInputFromFile_not_abort (w : World) (path : CStr) (s s1 : State) :
    DeepState_InitInputFromFile w path s ≠ .abort s1 := by
  unfold DeepState_InitInputFromFile
  split
  · simp
  · split
    · simp
    · split
      · simp
      · split
        · simp
        · dsimp only
          split <;> simp

theorem ran_runSavedTestCase_mem (w : World) (test : DeepState_TestInfo) (dir name : CStr)
    (s : State) (t : DeepState_TestInfo)
    (h : t ∈ ran (DeepState_RunSavedTestCase w test dir name s).trace) :
    t ∈ ran s.trace ∨ t = test := by
  unfold DeepState_RunSavedTestCase at h
  simp only [] at h
  have hi := ran_initInputFromFile w
    (if strncmp dir [] (strlen dir) ≠ 0 then dir ++ '/' :: name else name) s
  split at h
  · rename_i s1 heq
    rw [heq] at hi
    left
    rw [← hi]
    exact h
  · rename_i reason s1 heq
    rw [heq] at hi
    left
    rw [← hi]
    exact h
  · rename_i u s1 heq
    rw [heq] at hi
    simp only [Res.trace, Res.state] at hi
    split at h
    · simp only [Res.trace, Res.state] at h
      split at h <;>
        simp [call_trace, forkAndRunTest_trace, ran_append, ran, hi] at h <;>
        tauto
    · simp [Res.trace, Res.state, call_trace, forkAndRunTest_trace, ran_append, ran, hi]
        at h
      tauto

theorem ran_runSavedTestCase_of_load (w : World) (test : DeepState_TestInfo)
    (dir name : CStr) (s : State)
    (h : (DeepState_InitInputFromFile w
      (if strncmp dir [] (strlen dir) ≠ 0 then dir ++ '/' :: name else name) s).value
        = some ()) :
    ran (DeepState_RunSavedTestCase w test dir name s).trace = ran s.trace ++ [test] := by
  have hi := ran_initInputFromFile w
    (if strncmp dir [] (strlen dir) ≠ 0 then dir ++ '/' :: name else name) s
  unfold DeepState_RunSavedTestCase
  simp only []
  split
  · rename_i s1 heq
    rw [heq] at h
    simp [Res.value] at h
  · rename_i reason s1 heq
    rw [heq] at h
    simp [Res.value] at h
  · rename_i u s1 heq
    rw [heq] at hi
    simp only [Res.trace, Res.state] at hi
    split
    · simp only [Res.trace, Res.state]
      split <;> simp [call_trace, forkAndRunTest_trace, ran_append, ran, hi]
    · simp [Res.trace, Res.state, call_trace, forkAndRunTest_trace, ran_append, ran, hi]

theorem ran_dir_loop_mem (w : World) (test : DeepState_TestInfo) (entries : List CStr)
    (path_stat : Bool) (n : Int) (s : State) (t : DeepState_TestInfo)
    (h : t ∈ ran (DeepState_RunSingleSavedTestDir.loop w test entries path_stat n s).trace) :
    t ∈ ran s.trace ∨ t = test := by
  induction entries generalizing path_stat n s with
  | nil => exact Or.inl h
  | cons d rest ih =>
    unfold DeepState_RunSingleSavedTestDir.loop at h
    simp only [] at h
    have hcase := ran_runSavedTestCase_mem w test w.FLAGS_input_test_files_dir d s t
    split at h
    · split at h
      · rename_i s1 heq
        rw [heq] at hcase
        exact hcase h
      · rename_i reason s1 heq
        rw [heq] at hcase
        exact hcase h
      · rename_i result s1 heq
        rw [heq] at hcase
        simp only [Res.trace, Res.state] at hcase
        split at h
        · split at h
          · exact hcase h
          · rcases ih _ _ _ h with h1 | h1
            · exact hcase h1
            · exact Or.inr h1
        · rcases ih _ _ _ h with h1 | h1
          · exact hcase h1
          · exact Or.inr h1
    · exact ih _ _ _ h

theorem selectTest_fst_of_flag (w : World) (hflag : w.HAS_FLAG_input_which_test = true)
    (hsel : IsCStr w.FLAGS_input_which_test) (l : TestList) (s : State) :
    (selectTest w l s).1.head?
      = l.find? (fun t => decide (w.FLAGS_input_which_test <+: t.test_name)) ∧
    (selectTest w l s).2 = s := by
  induction l with
  | nil => simp [selectTest]
  | cons t ts ih =>
    have hp := strncmp_eq_zero_iff w.FLAGS_input_which_test t.test_name hsel
    by_cases hm : w.FLAGS_input_which_test <+: t.test_name
    · simp [selectTest, hflag, hp.2 hm, hm]
    · have hne : ¬ strncmp w.FLAGS_input_which_test t.test_name
          (strlen w.FLAGS_input_which_test) = 0 := fun h0 => hm (hp.1 h0)
      simp [selectTest, hflag, hne, hm, ih]

theorem selectTest_fst_of_no_flag (w : World) (hflag : w.HAS_FLAG_input_which_test = false)
    (l : TestList) (s : State) : (selectTest w l s).1 = l := by
  cases l <;> simp [selectTest, hflag]

theorem selectTest_fst_state (w : World) (l : TestList) (s s1 : State) :
    (selectTest w l s).1 = (selectTest w l s1).1 := by
  induction l with
  | nil => simp [selectTest]
  | cons t ts ih =>
    by_cases hflag : w.HAS_FLAG_input_which_test = true
    · by_cases hm : strncmp w.FLAGS_input_which_test t.test_name
          (strlen w.FLAGS_input_which_test) = 0
      · simp [selectTest, hflag, hm]
      · simp [selectTest, hflag, hm, ih]
    · simp [selectTest, hflag]

theorem ran_selectTest (w : World) (l : TestList) (s : State) :
    ran (selectTest w l s).2.trace = ran s.trace := by
  induction l with
  | nil => simp [selectTest]
  | cons t ts ih =>
    by_cases hflag : w.HAS_FLAG_input_which_test = true
    · by_cases hm : strncmp w.FLAGS_input_which_test t.test_name
          (strlen w.FLAGS_input_which_test) = 0
      · simp [selectTest, hflag, hm]
      · simp [selectTest, hflag, hm, ih]
    · simp [selectTest, hflag, call_trace, ran_append, ran]

theorem registerAll_eq_reverse (tests : List DeepState_TestInfo) :
    registerAll tests = tests.reverse := by
  have key : ∀ (l acc : List DeepState_TestInfo),
      List.foldl DeepState_Register acc l = l.reverse ++ acc := by
    intro l
    induction l with
    | nil => intro acc; rfl
    | cons t ts ih =>
      intro acc
      simp [List.foldl, ih, DeepState_Register]
  simpa using key tests []

theorem ran_runSingleSavedTestCase (w : World) (s : State) :
    ran (DeepState_RunSingleSavedTestCase w s).trace =
      match (selectTest w (DeepState_FirstTest w) (call .DeepState_Setup s)).1 with
      | [] => ran s.trace
      | test :: _ =>
        ran (DeepState_RunSavedTestCase w test [] w.FLAGS_input_test_file
          (selectTest w (DeepState_FirstTest w) (call .DeepState_Setup s)).2).trace := by
  unfold DeepState_RunSingleSavedTestCase
  simp only []
  split
  · simp [Res.trace, Res.state, call_trace, ran_append, ran, ran_selectTest]
  · split
    · rename_i s1 heq
      rw [heq]
      simp [Res.trace, Res.state]
    · rename_i reason s1 heq
      rw [heq]
      simp [Res.trace, Res.state]
    · rename_i result s1 heq
      rw [heq]
      split
      · split <;> simp [Res.trace, Res.state, call_trace, ran_append, ran]
      · simp [Res.trace, Res.state, call_trace, ran_append, ran]

theorem runSingleSavedTestCase_of_no_test (w : World) (s : State)
    (h : (selectTest w (DeepState_FirstTest w) s).1.head? = none) :
    (DeepState_RunSingleSavedTestCase w s).value = some 0 ∧
    ran (DeepState_RunSingleSavedTestCase w s).trace = ran s.trace := by
  rw [selectTest_fst_state w _ s (call .DeepState_Setup s)] at h
  unfold DeepState_RunSingleSavedTestCase
  simp only []
  split
  · simp [Res.value, Res.trace, Res.state, call_trace, ran_append, ran, ran_selectTest]
  · rename_i test rest heq
    rw [heq] at h
    simp at h

theorem runSingleSavedTestDir_of_no_test (w : World) (s : State)
    (h : (selectTest w (DeepState_FirstTest w) s).1.head? = none) :
    (DeepState_RunSingleSavedTestDir w s).value = some 0 ∧
    ran (DeepState_RunSingleSavedTestDir w s).trace = ran s.trace := by
  rw [selectTest_fst_state w _ s (call .DeepState_Setup s)] at h
  unfold DeepState_RunSingleSavedTestDir
  simp only []
  split
  · simp [Res.value, Res.trace, Res.state, call_trace, ran_append, ran, ran_selectTest]
  · rename_i test rest heq
    rw [heq] at h
    simp at h

theorem ran_runSingleSavedTestCase_mem (w : World) (s : State) (t : DeepState_TestInfo)
    (h : t ∈ ran (DeepState_RunSingleSavedTestCase w s).trace) :
    t ∈ ran s.trace ∨ (selectTest w (DeepState_FirstTest w) s).1.head? = some t := by
  rw [selectTest_fst_state w _ s (call .DeepState_Setup s)]
  rw [ran_runSingleSavedTestCase] at h
  split at h
  · exact Or.inl h
  · rename_i test rest heq
    rcases ran_runSavedTestCase_mem _ _ _ _ _ _ h with h1 | h1
    · rw [ran_selectTest] at h1
      simp [call_trace, ran_append, ran] at h1
      exact Or.inl h1
    · right
      rw [heq, h1]
      rfl

theorem ran_runSingleSavedTestDir_mem (w : World) (s : State) (t : DeepState_TestInfo)
    (h : t ∈ ran (DeepState_RunSingleSavedTestDir w s).trace) :
    t ∈ ran s.trace ∨ (selectTest w (DeepState_FirstTest w) s).1.head? = some t := by
  rw [selectTest_fst_state w _ s (call .DeepState_Setup s)]
  have hsel := ran_selectTest w (DeepState_FirstTest w) (call .DeepState_Setup s)
  simp only [call_trace, ran_append, ran, List.append_nil] at hsel
  unfold DeepState_RunSingleSavedTestDir at h
  simp only [] at h
  split at h
  · simp [Res.trace, Res.state, call_trace, ran_append, ran, hsel] at h
    exact Or.inl h
  · rename_i test rest heq
    split at h
    · simp [Res.trace, Res.state, call_trace, ran_append, ran, hsel] at h
      exact Or.inl h
    · rcases ran_dir_loop_mem _ _ _ _ _ _ _ h with h1 | h1
      · rw [hsel] at h1
        exact Or.inl h1
      · right
        rw [heq, h1]
        rfl

/-- C9: with `input_which_test` set, the single-test replay modes pick the
first test in iteration order whose name has the selector as a prefix, so a
name shorter than the selector never matches; when no registered name has
that prefix both modes return 0 and fork no child; with the flag unset they
pick the first test in iteration order. Every child that either mode forks
runs the test picked. -/
theorem select_test_first_prefix_match (w : World) (s : State)
    (hsel : IsCStr w.FLAGS_input_which_test) :
    (w.HAS_FLAG_input_which_test = true →
      (selectTest w (DeepState_FirstTest w) s).1.head?
        = (DeepState_FirstTest w).find?
            (fun t => decide (w.FLAGS_input_which_test <+: t.test_name)) ∧
      (∀ name : CStr, strlen name < strlen w.FLAGS_input_which_test →
        strncmp w.FLAGS_input_which_test name (strlen w.FLAGS_input_which_test) ≠ 0) ∧
      ((∀ t ∈ DeepState_FirstTest w, ¬ w.FLAGS_input_which_test <+: t.test_name) →
        (DeepState_RunSingleSavedTestCase w s).value = some 0 ∧
        ran (DeepState_RunSingleSavedTestCase w s).trace = ran s.trace ∧
        (DeepState_RunSingleSavedTestDir w s).value = some 0 ∧
        ran (DeepState_RunSingleSavedTestDir w s).trace = ran s.trace)) ∧
    (w.HAS_FLAG_input_which_test = false →
      (selectTest w (DeepState_FirstTest w) s).1.head? = (DeepState_FirstTest w).head?) ∧
    (∀ t ∈ ran (DeepState_RunSingleSavedTestCase w s).trace,
      t ∈ ran s.trace ∨ (selectTest w (DeepState_FirstTest w) s).1.head? = some t) ∧
    (∀ t ∈ ran (DeepState_RunSingleSavedTestDir w s).trace,
      t ∈ ran s.trace ∨ (selectTest w (DeepState_FirstTest w) s).1.head? = some t) := by
  refine ⟨?_, ?_, ?_, ?_⟩
  · intro hflag
    have hfind := (selectTest_fst_of_flag w hflag hsel (DeepState_FirstTest w) s).1
    refine ⟨hfind, ?_, ?_⟩
    · intro name hlen h0
      have hpre := (strncmp_eq_zero_iff _ name hsel).1 h0
      have hle := hpre.length_le
      unfold strlen at hlen
      omega
    · intro hnone
      have hn : (selectTest w (DeepState_FirstTest w) s).1.head? = none := by
        rw [hfind, List.find?_eq_none]
        intro t ht
        simpa using hnone t ht
      exact ⟨(runSingleSavedTestCase_of_no_test w s hn).1,
        (runSingleSavedTestCase_of_no_test w s hn).2,
        (runSingleSavedTestDir_of_no_test w s hn).1,
        (runSingleSavedTestDir_of_no_test w s hn).2⟩
  · intro hflag
    rw [selectTest_fst_of_no_flag w hflag]
  · exact fun t ht => ran_runSingleSavedTestCase_mem w s t ht
  · exact fun t ht => ran_runSingleSavedTestDir_mem w s t ht

/-- Witness of C9: with `Foo_A` and then `Foo_B` registered, the selector
`Foo_A` picks `Foo_A`, the first test in iteration order that matches. -/
theorem select_test_first_prefix_match_witness :
    IsCStr World.selectA.FLAGS_input_which_test ∧
    DeepState_FirstTest World.selectA = [testNamed "Foo_B", testNamed "Foo_A"] ∧
    (selectTest World.selectA (DeepState_FirstTest World.selectA) State.init).1.head?
      = some (testNamed "Foo_A") :=
  ⟨by decide, by decide,
    ((select_test_first_prefix_match World.selectA State.init (by decide)).1
      (by decide)).1.trans (by decide)⟩

/-- C10, refuted as stated: `Foo_A` is registered first and `Foo_B` second,
the selector `Foo` is a prefix of both names, and the replay of the single
file forks its one child for `Foo_B`, the test registered last; no child runs
`Foo_A`. -/
theorem single_file_replay_picks_last_registered :
    World.twoTests.DeepState_LastTestInfo
      = registerAll [testNamed "Foo_A", testNamed "Foo_B"] ∧
    World.twoTests.FLAGS_input_which_test <+: (testNamed "Foo_A").test_name ∧
    World.twoTests.FLAGS_input_which_test <+: (testNamed "Foo_B").test_name ∧
    DeepState_FirstTest World.twoTests = [testNamed "Foo_B", testNamed "Foo_A"] ∧
    ran (DeepState_Run World.twoTests State.init).trace = [testNamed "Foo_B"] ∧
    testNamed "Foo_A" ∉ ran (DeepState_Run World.twoTests State.init).trace := by
  decide

/-- C10, amended: among the registered tests whose names have the selector as
a prefix, the single-file replay picks the one registered last, which
iteration from the last registered descriptor along `prev` visits first; no
child is forked for another test, and when the input file loads one child is
forked for the test picked. -/
theorem single_file_replay_last_registered_wins (w : World) (s : State)
    (pre post : List DeepState_TestInfo) (t : DeepState_TestInfo)
    (hsel : IsCStr w.FLAGS_input_which_test)
    (hflag : w.HAS_FLAG_input_which_test = true)
    (hreg : w.DeepState_LastTestInfo = registerAll (pre ++ t :: post))
    (ht : w.FLAGS_input_which_test <+: t.test_name)
    (hpost : ∀ u ∈ post, ¬ w.FLAGS_input_which_test <+: u.test_name) :
    (selectTest w (DeepState_FirstTest w) s).1.head? = some t ∧
    (∀ u ∈ ran (DeepState_RunSingleSavedTestCase w s).trace, u ∈ ran s.trace ∨ u = t) ∧
    ((∀ s1, (DeepState_InitInputFromFile w w.FLAGS_input_test_file s1).value = some ()) →
      ran (DeepState_RunSingleSavedTestCase w s).trace = ran s.trace ++ [t]) := by
  have hfind : ∀ s1, (selectTest w (DeepState_FirstTest w) s1).1.head? = some t := by
    intro s1
    rw [(selectTest_fst_of_flag w hflag hsel (DeepState_FirstTest w) s1).1]
    unfold DeepState_FirstTest
    rw [hreg, registerAll_eq_reverse, List.reverse_append, List.reverse_cons,
      List.append_assoc, List.find?_append]
    have hnone : List.find? (fun t => decide (w.FLAGS_input_which_test <+: t.test_name))
        post.reverse = none := by
      rw [List.find?_eq_none]
      intro u hu
      simpa using hpost u (List.mem_reverse.1 hu)
    rw [hnone]
    simp [List.find?, ht]
  refine ⟨hfind s, ?_, ?_⟩
  · intro u hu
    rcases ran_runSingleSavedTestCase_mem w s u hu with h1 | h1
    · exact Or.inl h1
    · rw [hfind s] at h1
      exact Or.inr (Option.some.inj h1).symm
  · intro hload
    rw [ran_runSingleSavedTestCase]
    have hsel1 := hfind (call .DeepState_Setup s)
    split
    · rename_i heq
      rw [heq] at hsel1
      simp at hsel1
    · rename_i test rest heq
      rw [heq] at hsel1
      simp only [List.head?_cons, Option.some.injEq] at hsel1
      subst hsel1
      rw [ran_runSavedTestCase_of_load]
      · simp [ran_selectTest, call_trace, ran_append, ran]
      · simpa [strncmp, strlen] using hload _

/-- Witness of C10 as amended: with `Foo_A` registered before `Foo_B`, the
selector `Foo` and a readable file, the one child forked runs `Foo_B`. -/
theorem single_file_replay_last_registered_wins_witness :
    IsCStr World.twoTests.FLAGS_input_which_test ∧
    World.twoTests.FLAGS_input_which_test <+: (testNamed "Foo_A").test_name ∧
    World.twoTests.FLAGS_input_which_test <+: (testNamed "Foo_B").test_name ∧
    ran (DeepState_RunSingleSavedTestCase World.twoTests State.init).trace
      = ran State.init.trace ++ [testNamed "Foo_B"] :=
  ⟨by decide, by decide, by decide,
    (single_file_replay_last_registered_wins World.twoTests State.init
      [testNamed "Foo_A"] [] (testNamed "Foo_B") (by decide) (by decide) (by decide)
      (by decide) (by decide)).2.2 (fun _ => rfl)⟩

/-! ## Saving the crashing input -/

/-- C11: with `output_test_dir` set, the fresh run of one test whose child a
signal kills classifies the run as `DeepState_TestRunCrash` and returns
without a call of `DeepState_SaveCrashingTest`; the replay of a directory
makes that call for the same kind of run. -/
theorem fresh_run_crash_not_saved :
    World.oneCrashSave.HAS_FLAG_output_test_dir = true ∧
    World.oneCrashSave.HAS_FLAG_input_test_dir = false ∧
    World.oneCrashSave.HAS_FLAG_input_test_file = false ∧
    World.oneCrashSave.HAS_FLAG_input_test_files_dir = false ∧
    (DeepState_ForkAndRunTest World.oneCrashSave (testNamed "T4") State.init).1
      = DeepState_TestRunCrash ∧
    ran (DeepState_Run World.oneCrashSave State.init).trace = [testNamed "T4"] ∧
    (DeepState_Run World.oneCrashSave State.init).trace.count
      .DeepState_SaveCrashingTest = 0 ∧
    (DeepState_Run World.dirCrashSave State.init).trace.count
      .DeepState_SaveCrashingTest = 1 := by
  decide

/-! ## The exit code of the child -/

/-- C13: after a jump back into `DeepState_RunTest` the child exits with
`DeepState_TestRunFail` (1) when `DeepState_CatchFail()` holds, also when the
run was abandoned as well; otherwise with `DeepState_TestRunAbandon` (3) when
`DeepState_CatchAbandoned()` holds; otherwise with `DeepState_TestRunPass` (0).
However the test function ends, an exit made by `DeepState_RunTest` has a
code among 0, 1 and 3, never `DeepState_TestRunCrash`, and the branch of the
abandoned run saves no test. -/
theorem runTest_exit_code (w : World) (test : DeepState_TestInfo) (test_func : TestFuncEnd)
    (DeepState_CatchFail DeepState_CatchAbandoned : Bool) :
    (DeepState_RunTest w test .jumped DeepState_CatchFail DeepState_CatchAbandoned).exit_code
      = some (if DeepState_CatchFail = true then 1
          else if DeepState_CatchAbandoned = true then 3 else 0) ∧
    (DeepState_RunTest w test .jumped true DeepState_CatchAbandoned).exit_code
      = some DeepState_TestRunFail ∧
    (DeepState_RunTest w test .jumped false true).exit_code
      = some DeepState_TestRunAbandon ∧
    (DeepState_RunTest w test .jumped false false).exit_code
      = some DeepState_TestRunPass ∧
    (DeepState_RunTest w test test_func DeepState_CatchFail DeepState_CatchAbandoned).exit_code
      ∈ [none, some 0, some 1, some 3] ∧
    (DeepState_RunTest w test test_func DeepState_CatchFail DeepState_CatchAbandoned).exit_code
      ≠ some DeepState_TestRunCrash ∧
    ChildEvent.DeepState_SaveFailingTest
      ∉ (DeepState_RunTest w test .jumped false true).trace ∧
    ChildEvent.DeepState_SavePassingTest
      ∉ (DeepState_RunTest w test .jumped false true).trace := by
  refine ⟨?_, ?_, ?_, ?_, ?_, ?_, ?_, ?_⟩
  · cases DeepState_CatchFail <;> cases DeepState_CatchAbandoned <;> rfl
  · rfl
  · rfl
  · rfl
  · cases test_func <;> cases DeepState_CatchFail <;> cases DeepState_CatchAbandoned <;>
      simp [DeepState_RunTest, DeepState_TestRunPass, DeepState_TestRunFail,
        DeepState_TestRunAbandon]
  · cases test_func <;> cases DeepState_CatchFail <;> cases DeepState_CatchAbandoned <;>
      simp [DeepState_RunTest, DeepState_TestRunPass, DeepState_TestRunFail,
        DeepState_TestRunAbandon, DeepState_TestRunCrash]
  · simp [DeepState_RunTest]
  · simp [DeepState_RunTest]

/-! ## Loading a corpus file -/

theorem memset_whole (buf : List Nat) (v : Nat) :
    memset buf v buf.length = List.replicate buf.length v := by
  simp [memset]

theorem fread_whole (buf data : List Nat) :
    fread buf data.length data = (data.length, data ++ buf.drop data.length) := by
  simp [fread]

theorem initInputFromFile_of_fits (w : World) (path : CStr) (s : State) (fp : FileInfo)
    (hbuf : s.DeepState_Input.length = DeepState_InputSize)
    (hopen : w.fopen path = some fp) (hfd : 0 ≤ fp.fileno)
    (hstat : fp.fstat = some fp.data.length)
    (hfit : fp.data.length ≤ DeepState_InputSize) :
    DeepState_InitInputFromFile w path s =
      .ret () (call (.DeepState_LogFormat .DeepState_LogInfo
        "Initialized test input buffer with data from `%s`" [path])
        { s with
          DeepState_Input :=
            fp.data ++ List.replicate (DeepState_InputSize - fp.data.length) 0
          DeepState_InputIndex := 0 }) := by
  have hfd1 : ¬ fp.fileno < 0 := by omega
  have hfit1 : ¬ fp.data.length > DeepState_InputSize := by omega
  have hm := memset_whole s.DeepState_Input 0
  rw [hbuf] at hm
  unfold DeepState_InitInputFromFile
  simp only [hopen, hstat, hfd1, hfit1, if_false, hm, fread_whole, ne_eq, not_true_eq_false,
    List.drop_replicate]

/-- C12: for a file that opens, whose size `fstat` reports and `fread`
delivers in full, and a buffer of `DeepState_InputSize` = 8192 bytes: when the
content has at most 8192 bytes the call returns with `DeepState_InputIndex`
0, the content at the start of `DeepState_Input` and 0 in every later byte,
whatever the buffer and the cursor held before; when the content has more
than 8192 bytes the call abandons with `File too large`. -/
theorem initInputFromFile_load (w : World) (path : CStr) (s : State) (fp : FileInfo)
    (hbuf : s.DeepState_Input.length = DeepState_InputSize)
    (hopen : w.fopen path = some fp) (hfd : 0 ≤ fp.fileno)
    (hstat : fp.fstat = some fp.data.length) :
    DeepState_InputSize = 8192 ∧
    (fp.data.length ≤ 8192 →
      (DeepState_InitInputFromFile w path s).value = some () ∧
      (DeepState_InitInputFromFile w path s).state.DeepState_InputIndex = 0 ∧
      (DeepState_InitInputFromFile w path s).state.DeepState_Input.length = 8192 ∧
      (∀ i, i < fp.data.length →
        (DeepState_InitInputFromFile w path s).state.DeepState_Input[i]? = fp.data[i]?) ∧
      (∀ i, fp.data.length ≤ i → i < 8192 →
        (DeepState_InitInputFromFile w path s).state.DeepState_Input[i]? = some 0)) ∧
    (8192 < fp.data.length →
      DeepState_InitInputFromFile w path s = .abandon "File too large" s) := by
  refine ⟨rfl, ?_, ?_⟩
  · intro hfit
    have hsz : DeepState_InputSize = 8192 := rfl
    rw [initInputFromFile_of_fits w path s fp hbuf hopen hfd hstat (by omega)]
    refine ⟨rfl, rfl, ?_, ?_, ?_⟩
    · simp only [Res.state, call, hsz, List.length_append, List.length_replicate]
      omega
    · intro i hi
      simp only [Res.state, call, hsz]
      rw [List.getElem?_append_left hi]
    · intro i hle hlt
      simp only [Res.state, call, hsz]
      rw [List.getElem?_append_right hle, List.getElem?_replicate]
      have : i - fp.data.length < 8192 - fp.data.length := by omega
      simp [this]
  · intro hbig
    have hfd1 : ¬ fp.fileno < 0 := by omega
    have hbig1 : fp.data.length > DeepState_InputSize := hbig
    unfold DeepState_InitInputFromFile
    simp only [hopen, hstat, hfd1, hbig1, if_false, if_true]

/-- Witness of C12: the four bytes of `corpus/a.bin` fill the start of the
buffer and byte 4 is 0; the 8193 bytes of `big.bin` make the call abandon. -/
theorem initInputFromFile_load_witness :
    (DeepState_InitInputFromFile World.dirReplay "corpus/a.bin".toList
      State.init).state.DeepState_Input[3]? = some 170 ∧
    (DeepState_InitInputFromFile World.dirReplay "corpus/a.bin".toList
      State.init).state.DeepState_Input[4]? = some 0 ∧
    DeepState_InitInputFromFile World.tooLarge "big.bin".toList State.init
      = .abandon "File too large" State.init :=
  ⟨((initInputFromFile_load World.dirReplay "corpus/a.bin".toList State.init smallFile
      (by simp [State.init]) rfl (by decide) rfl).2.1 (by decide)).2.2.2.1 3 (by decide),
    ((initInputFromFile_load World.dirReplay "corpus/a.bin".toList State.init smallFile
      (by simp [State.init]) rfl (by decide) rfl).2.1
        (by decide)).2.2.2.2 4 (by decide) (by decide),
    (initInputFromFile_load World.tooLarge "big.bin".toList State.init largeFile
      (by simp [State.init]) rfl (by decide)
      (by simp only [largeFile, List.length_replicate])).2.2
        (by simp only [largeFile, List.length_replicate]; decide)⟩

end DeepState
